import Mathlib

/-!
Verification of the FloodWatch-LK intelligence engine.

Shallow embedding of the analysis core of the repository:
  backend/app/services/intel_engine.py   (scoring, clustering, summary, orchestrator)
  backend/app/services/sos_fetcher.py    (report normalization, fetch-and-merge cache)
  backend/app/services/geonames.py       (elevation risk tiers)

Modelling conventions:
  * Python dict-shaped reports are modelled as a structure whose optional fields use
    Option; a value of none models Python None (post-normalization every field key
    is present, so key-absence does not need a separate case except where noted).
  * Python floats are modelled as exact rationals (Rat); float rounding artifacts are
    outside the model.  Python round(x, n) uses round-half-to-even, modelled exactly.
  * Python str.lower / str.upper are modelled on the ASCII range, which covers the
    district names and water-level labels the code compares.
  * The haversine distance of intel_engine.py is transcendental (sin, cos, atan2), so
    the cluster builder is parameterized by the induced proximity predicate `near`;
    all clustering results hold for every such predicate.  Likewise the network
    elevation lookup is parameterized by the resolved elevation assignment.
  * The audit-only score_factors strings of _compute_priorities are not modelled;
    no claim depends on them.
-/

namespace FloodWatch

/-- ASCII lower-casing of a character, the fragment of Python str.lower the code relies on. -/
def asciiLowerChar (c : Char) : Char :=
  if 65 ≤ c.toNat ∧ c.toNat ≤ 90 then Char.ofNat (c.toNat + 32) else c

/-- ASCII lower-casing of a string; model of Python str.lower on the identifiers compared here. -/
def asciiLower (s : String) : String := String.mk (s.data.map asciiLowerChar)

/-- ASCII upper-casing of a character. -/
def asciiUpperChar (c : Char) : Char :=
  if 97 ≤ c.toNat ∧ c.toNat ≤ 122 then Char.ofNat (c.toNat - 32) else c

/-- ASCII upper-casing of a string; model of Python str.upper on the water-level labels. -/
def asciiUpper (s : String) : String := String.mk (s.data.map asciiUpperChar)

/-- Floor of a rational as an integer (den is positive, so Euclidean division is floor). -/
def ratFloor (x : Rat) : Int := x.num.ediv x.den

/-- Round-half-to-even on rationals, the semantics of Python round for exact values. -/
def roundHalfEven (x : Rat) : Int :=
  let f := ratFloor x
  let r := x - (f : Rat)
  if r < 1/2 then f
  else if 1/2 < r then f + 1
  else if f % 2 = 0 then f else f + 1

/-- Python round(x, 1) on exact rationals. -/
def round1 (x : Rat) : Rat := ((roundHalfEven (10 * x) : Int) : Rat) / 10

/-- Python `(s or DEFAULT)` for an optional string: None and "" are falsy. -/
def orElseStr (s : Option String) (dflt : String) : String :=
  match s with
  | none => dflt
  | some t => if t = "" then dflt else t

/-- A report as consumed by IntelEngine._compute_priorities: the dict produced by
SOSFetcher._normalize_reports.  Only the fields the analysis core reads are modelled.
none models a Python None value stored under the key. -/
structure Report where
  id : Int
  district : Option String
  latitude : Option Rat
  longitude : Option Rat
  water_level : Option String
  number_of_people : Option Int
  safe_for_hours : Option Rat
  has_children : Bool
  has_elderly : Bool
  has_disabled : Bool
  has_medical_emergency : Bool
  has_food : Bool
  has_water : Bool
  has_power : Bool
  battery_percent : Option Int
deriving DecidableEq

/-- One per-district weather snapshot as served by WeatherCache.get_all_weather;
only the fields the intel engine reads are modelled. -/
structure Weather where
  district : Option String
  forecast_precip_24h_mm : Option Rat
  alert_level : Option String
deriving DecidableEq

/-- SOSFetcher._parse_int applied to item.get("numberOfPeople", 1): key absent gives the
default 1, a null or unparsable value gives _parse_int default 0, a numeric value passes
through unchanged (including zero and negatives).  The outer Option models key absence,
the inner one a null/unparsable value. -/
def normalizeNumberOfPeople (raw : Option (Option Int)) : Int :=
  match raw with
  | none => 1
  | some none => 0
  | some (some n) => n

/-- item.get("district", "Unknown"): key absence gives "Unknown", a present value
(null included) passes through. -/
def normalizeDistrict (raw : Option (Option String)) : Option String :=
  match raw with
  | none => some "Unknown"
  | some v => v

/-- SOSFetcher._parse_float applied to item.get("latitude"): key absence, null and
unparsable values all collapse to None; a numeric value passes through. -/
def normalizeCoordinate (raw : Option (Option Rat)) : Option Rat :=
  match raw with
  | none => none
  | some v => v

/-- Water level factor: (report.get("water_level") or "UNKNOWN").upper() looked up in
WATER_LEVEL_SCORES with dict default 10. -/
def waterLevelPoints (wl : Option String) : Int :=
  let s := asciiUpper (orElseStr wl "UNKNOWN")
  if s = "ROOF" then 40
  else if s = "NECK" then 35
  else if s = "CHEST" then 25
  else if s = "WAIST" then 15
  else if s = "ANKLE" then 5
  else if s = "UNKNOWN" then 10
  else 10

/-- Vulnerable-population factor (intel_engine.py lines 131-142). -/
def vulnerabilityPoints (r : Report) : Int :=
  (if r.has_medical_emergency then 15 else 0)
    + (if r.has_disabled then 8 else 0)
    + (if r.has_elderly then 5 else 0)
    + (if r.has_children then 2 else 0)

/-- Time-pressure factor (intel_engine.py lines 145-158); skipped when safe_for_hours is None. -/
def timePressurePoints (sh : Option Rat) : Int :=
  match sh with
  | none => 0
  | some h =>
    if h ≤ 1 then 20
    else if h ≤ 3 then 15
    else if h ≤ 6 then 10
    else if h ≤ 12 then 5
    else 0

/-- People-count factor: min(report.get("number_of_people", 1), 10).  Note: no lower bound. -/
def peoplePoints (p : Option Int) : Int := min (p.getD 1) 10

/-- Resource scarcity: +3 when has_food is falsy. -/
def noFoodPoints (r : Report) : Int := if r.has_food then 0 else 3

/-- Resource scarcity: +5 when has_water is falsy. -/
def noWaterPoints (r : Report) : Int := if r.has_water then 0 else 5

/-- Resource scarcity: +2 when has_power is falsy and (battery_percent or 0) < 20. -/
def lowBatteryPoints (r : Report) : Int :=
  if r.has_power = false ∧ r.battery_percent.getD 0 < 20 then 2 else 0

/-- Total resource-scarcity factor (intel_engine.py lines 166-174). -/
def resourcePoints (r : Report) : Int :=
  noFoodPoints r + noWaterPoints r + lowBatteryPoints r

/-- Weather-escalation buckets on the forecast 24h rain (intel_engine.py lines 181-190). -/
def weatherRiskPoints (rain : Rat) : Int :=
  if rain > 100 then 15
  else if rain > 50 then 10
  else if rain > 25 then 5
  else 0

/-- Lookup key of a weather snapshot: (w.get("district") or "").lower(). -/
def weatherKey (w : Weather) : String := asciiLower (orElseStr w.district "")

/-- Lookup key of a report: (report.get("district") or "").lower(). -/
def reportKey (r : Report) : String := asciiLower (orElseStr r.district "")

/-- The weather_by_district dict built on intel_engine.py lines 97-100: later entries with
the same key overwrite earlier ones, so the lookup finds the last match. -/
def weatherFor (ws : List Weather) (key : String) : Option Weather :=
  ws.reverse.find? (fun w => decide (weatherKey w = key))

/-- Weather risk of an optional snapshot: a missing district entry contributes 0, a present
one is bucketed on weather.get("forecast_precip_24h_mm", 0) or 0. -/
def weatherRiskOf (ow : Option Weather) : Int :=
  match ow with
  | none => 0
  | some w => weatherRiskPoints (w.forecast_precip_24h_mm.getD 0)

/-- geonames.calculate_elevation_risk: elevation to (risk score, risk level). -/
def calculateElevationRisk (e : Option Int) : Int × String :=
  match e with
  | none => (0, "UNKNOWN")
  | some v =>
    if v < 5 then (15, "CRITICAL")
    else if v < 15 then (10, "HIGH")
    else if v < 50 then (5, "MEDIUM")
    else if v < 100 then (2, "LOW")
    else (0, "MINIMAL")

/-- Python truthiness of an optional float coordinate: None and 0.0 are falsy. -/
def truthyCoord (x : Option Rat) : Bool :=
  match x with
  | none => false
  | some v => decide (v ≠ 0)

/-- `if lat and lng` on a report. -/
def hasCoords (r : Report) : Bool :=
  truthyCoord r.latitude && truthyCoord r.longitude

/-- The factor sum accumulated by _compute_priorities before the cap at 100.
elevm is the elevation-cache lookup result for the coordinates of r; it is consulted
only when both coordinates are truthy, exactly as on intel_engine.py lines 197-205. -/
def preCapScore (r : Report) (ws : List Weather) (elevm : Option Int) : Int :=
  let em := if hasCoords r then elevm else none
  waterLevelPoints r.water_level
    + vulnerabilityPoints r
    + timePressurePoints r.safe_for_hours
    + peoplePoints r.number_of_people
    + resourcePoints r
    + weatherRiskOf (weatherFor ws (reportKey r))
    + (calculateElevationRisk em).1

/-- Urgency tier from the capped score (intel_engine.py lines 211-218). -/
def urgencyTier (s : Int) : String :=
  if s ≥ 70 then "CRITICAL"
  else if s ≥ 50 then "HIGH"
  else if s ≥ 30 then "MEDIUM"
  else "LOW"

/-- A scored report: the input report annotated by _compute_priorities. -/
structure ScoredReport where
  report : Report
  urgency_score : Int
  urgency_tier : String
  weather_risk : Int
  elevation_m : Option Int
  elevation_risk : Int
  elevation_risk_level : String
deriving DecidableEq

/-- Scoring of one report (loop body of _compute_priorities). -/
def scoreReport (r : Report) (ws : List Weather) (elevm : Option Int) : ScoredReport :=
  let em := if hasCoords r then elevm else none
  let er := calculateElevationRisk em
  let s := min (preCapScore r ws elevm) 100
  { report := r
  , urgency_score := s
  , urgency_tier := urgencyTier s
  , weather_risk := weatherRiskOf (weatherFor ws (reportKey r))
  , elevation_m := em
  , elevation_risk := er.1
  , elevation_risk_level := er.2 }

/-- Stable insertion used to model Python list.sort(key=..., reverse=True): x is placed
before the first element strictly below it, so equal keys keep their original order. -/
def insertD (lt : α → α → Bool) (x : α) : List α → List α
  | [] => [x]
  | y :: ys => if lt y x then x :: y :: ys else y :: insertD lt x ys

/-- Stable descending sort by the strict comparison lt (lt a b means a ranks below b). -/
def sortD (lt : α → α → Bool) (l : List α) : List α :=
  l.foldl (fun acc x => insertD lt x acc) []

/-- The elevation-cache lookup for a report: the composition of coordinate rounding and
the (rate-limited, fallible) GeoNames fetches is abstracted as one assignment elevOf. -/
def elevFor (elevOf : Rat → Rat → Option Int) (r : Report) : Option Int :=
  match r.latitude, r.longitude with
  | some la, some lo => elevOf la lo
  | _, _ => none

/-- IntelEngine._compute_priorities: score every report, then sort by urgency score
descending (stable). -/
def computePriorities (reports : List Report) (ws : List Weather)
    (elevOf : Rat → Rat → Option Int) : List ScoredReport :=
  sortD (fun a b => decide (a.urgency_score < b.urgency_score))
    (reports.map (fun r => scoreReport r ws (elevFor elevOf r)))

/-- First-occurrence deduplication, accumulator style.  Models the key order of a Python
defaultdict populated by one left-to-right pass (first occurrence of each key wins). -/
def firstDedupAux [DecidableEq α] (seen : List α) : List α → List α
  | [] => []
  | x :: xs => if x ∈ seen then firstDedupAux seen xs else x :: firstDedupAux (x :: seen) xs

/-- First-occurrence deduplication of a list. -/
def firstDedup [DecidableEq α] (l : List α) : List α := firstDedupAux [] l

/-- A cluster as built by IntelEngine._build_cluster.  The vulnerabilities sub-dict is
flattened into the four flag fields.  The source computes `districts` as list(set(...)),
whose iteration order is unspecified; it is modelled as first-occurrence order, and only
membership in this list is relied upon downstream. -/
structure Cluster where
  cluster_id : String
  name : String
  districts : List (Option String)
  report_count : Nat
  total_people : Int
  total_urgency : Int
  avg_urgency : Rat
  critical_count : Nat
  high_count : Nat
  centroid_lat : Option Rat
  centroid_lng : Option Rat
  has_medical : Bool
  has_elderly : Bool
  has_children : Bool
  has_disabled : Bool
  reports : List Int
  top_reports : List ScoredReport
deriving DecidableEq

/-- IntelEngine._build_cluster.  The source indexes reports[0] for the cluster id and is
only ever called on nonempty member lists; the empty case is given the placeholder the
source would use for a missing id.  nm is the optional district key passed by the
district-fallback path (None from the geographic path); `nm or generated-name` treats
None and "" as falsy.  A None district rendered into the generated name appears as "None",
matching Python f-string formatting. -/
def buildCluster (members : List ScoredReport) (nm : Option String) : Cluster :=
  let total_people : Int := (members.map (fun r => r.report.number_of_people.getD 1)).sum
  let total_urgency : Int := (members.map (fun r => r.urgency_score)).sum
  let avg : Rat := if members.length = 0 then 0 else (total_urgency : Rat) / (members.length : Rat)
  let lats := members.filterMap (fun r => if truthyCoord r.report.latitude then r.report.latitude else none)
  let lngs := members.filterMap (fun r => if truthyCoord r.report.longitude then r.report.longitude else none)
  let districts := firstDedup (members.map (fun r => r.report.district))
  let genName := "Cluster near " ++
    (match districts.head? with
     | some (some d) => d
     | some none => "None"
     | none => "Unknown")
  { cluster_id := "cluster_" ++ (match members.head? with
      | some r => toString r.report.id
      | none => "unknown")
  , name := match nm with
      | some s => if s = "" then genName else s
      | none => genName
  , districts := districts
  , report_count := members.length
  , total_people := total_people
  , total_urgency := total_urgency
  , avg_urgency := round1 avg
  , critical_count := (members.filter (fun r => decide (r.urgency_tier = "CRITICAL"))).length
  , high_count := (members.filter (fun r => decide (r.urgency_tier = "HIGH"))).length
  , centroid_lat := if lats.length = 0 then none else some (lats.sum / (lats.length : Rat))
  , centroid_lng := if lngs.length = 0 then none else some (lngs.sum / (lngs.length : Rat))
  , has_medical := members.any (fun r => r.report.has_medical_emergency)
  , has_elderly := members.any (fun r => r.report.has_elderly)
  , has_children := members.any (fun r => r.report.has_children)
  , has_disabled := members.any (fun r => r.report.has_disabled)
  , reports := members.map (fun r => r.report.id)
  , top_reports := members.take 5 }

/-- Seed-anchored greedy grouping, fuel-indexed for structural recursion: the first
remaining element seeds a group that absorbs every later remaining element within the
predicate, exactly the used-set loop of _detect_clusters (and, with district equality as
the predicate, the defaultdict grouping of _cluster_by_district).  Each step consumes at
least one element, so fuel = length of the list makes the zero-fuel case unreachable. -/
def splitRuns (p : α → α → Bool) : Nat → List α → List (List α)
  | 0, _ => []
  | _ + 1, [] => []
  | fuel + 1, x :: rest =>
    (x :: rest.filter (p x)) :: splitRuns p fuel (rest.filter (fun y => !(p x y)))

/-- Coordinate truthiness of a scored report (same fields as the underlying report dict). -/
def hasCoordsS (r : ScoredReport) : Bool := hasCoords r.report

/-- Cluster sort comparison: ranked by total_urgency descending. -/
def clusterLt (a b : Cluster) : Bool := decide (a.total_urgency < b.total_urgency)

/-- Grouping predicate of _cluster_by_district: same district dict value as the seed. -/
def sameDistrict (a b : ScoredReport) : Bool := decide (b.report.district = a.report.district)

/-- IntelEngine._cluster_by_district: group by the raw district value (the key is always
present after normalization, so the dict default "Unknown" is never taken), build one
cluster per group passing the key as the name, sort by total urgency descending. -/
def clusterByDistrict (reports : List ScoredReport) : List Cluster :=
  sortD clusterLt ((splitRuns sameDistrict reports.length reports).map
    (fun g => buildCluster g (match g.head? with
      | some r => r.report.district
      | none => none)))

/-- IntelEngine._detect_clusters: filter to reports with truthy coordinates; when none
remain, fall back to district clustering of the full list; otherwise greedily cluster the
coordinate-bearing subset with the proximity predicate near (haversine distance to the
seed at most 2.0 km in the source) and sort by total urgency descending.  The
`len(cluster_reports) >= 1` guard of the source is always true and is dropped. -/
def detectClusters (near : ScoredReport → ScoredReport → Bool)
    (reports : List ScoredReport) : List Cluster :=
  let geo := reports.filter hasCoordsS
  if geo.isEmpty then clusterByDistrict reports
  else sortD clusterLt ((splitRuns near geo.length geo).map (fun g => buildCluster g none))

/-- Per-district stat block of IntelEngine._generate_summary. -/
structure DistrictStats where
  count : Nat
  total_people : Int
  critical : Nat
  high : Nat
  medium : Nat
  low : Nat
  avg_urgency : Rat
  needs_food : Nat
  needs_water : Nat
  has_medical : Nat
  forecast_rain_24h : Rat
  current_alert_level : String
deriving DecidableEq

/-- Grouping key of the summary loop: r.get("district") or "Unknown". -/
def summaryKey (r : ScoredReport) : String := orElseStr r.report.district "Unknown"

/-- The stat block accumulated for district key d (intel_engine.py lines 371-398).
Members are grouped by summaryKey, but the avg_urgency numerator filters by the literal
comparison r.get("district") == d of line 391, which does not match members whose district
is None or "" even though they are grouped under "Unknown".  Tier buckets lower-case the
tier string; a scored report always carries one of the four canonical tiers (for other
strings the Python defaultdict would grow an ad-hoc key, which is outside the model).
Weather attachment defaults follow lines 396-398; a null field value is conflated with an
absent one (both yield the default here, while Python would pass the null through; no
claim depends on the difference). -/
def statsFor (d : String) (reports : List ScoredReport) (ws : List Weather) : DistrictStats :=
  let members := reports.filter (fun r => decide (summaryKey r = d))
  let cnt := members.length
  let litSum : Int :=
    ((reports.filter (fun r => decide (r.report.district = some d))).map
      (fun r => r.urgency_score)).sum
  let w := weatherFor ws (asciiLower d)
  { count := cnt
  , total_people := (members.map (fun r => r.report.number_of_people.getD 1)).sum
  , critical := (members.filter (fun r => decide (asciiLower r.urgency_tier = "critical"))).length
  , high := (members.filter (fun r => decide (asciiLower r.urgency_tier = "high"))).length
  , medium := (members.filter (fun r => decide (asciiLower r.urgency_tier = "medium"))).length
  , low := (members.filter (fun r => decide (asciiLower r.urgency_tier = "low"))).length
  , avg_urgency := if 0 < cnt then round1 ((litSum : Rat) / (cnt : Rat)) else 0
  , needs_food := (members.filter (fun r => !r.report.has_food)).length
  , needs_water := (members.filter (fun r => !r.report.has_water)).length
  , has_medical := (members.filter (fun r => r.report.has_medical_emergency)).length
  , forecast_rain_24h := match w with
      | none => 0
      | some w0 => w0.forecast_precip_24h_mm.getD 0
  , current_alert_level := match w with
      | none => "green"
      | some w0 => w0.alert_level.getD "green" }

/-- Sort comparison for most_affected_districts: key (critical + high, count), descending. -/
def districtRankLt (a b : String × DistrictStats) : Bool :=
  decide (a.2.critical + a.2.high < b.2.critical + b.2.high
    ∨ (a.2.critical + a.2.high = b.2.critical + b.2.high ∧ a.2.count < b.2.count))

/-- The global summary of IntelEngine._generate_summary.  The urgency_breakdown,
resource_needs and vulnerability_counts sub-dicts are flattened into fields; the
analysis timestamp is outside the model. -/
structure Summary where
  total_reports : Nat
  total_people_affected : Int
  total_clusters : Nat
  critical : Nat
  high : Nat
  medium : Nat
  low : Nat
  needs_food : Nat
  needs_water : Nat
  medical_emergencies : Nat
  with_elderly : Nat
  with_children : Nat
  with_disabled : Nat
  most_affected_districts : List (String × DistrictStats)
  districts : List (String × DistrictStats)
deriving DecidableEq

/-- IntelEngine._generate_summary. -/
def generateSummary (reports : List ScoredReport) (clusters : List Cluster)
    (ws : List Weather) : Summary :=
  let keys := firstDedup (reports.map summaryKey)
  let dstats := keys.map (fun d => (d, statsFor d reports ws))
  { total_reports := reports.length
  , total_people_affected := (reports.map (fun r => r.report.number_of_people.getD 1)).sum
  , total_clusters := clusters.length
  , critical := (reports.filter (fun r => decide (r.urgency_tier = "CRITICAL"))).length
  , high := (reports.filter (fun r => decide (r.urgency_tier = "HIGH"))).length
  , medium := (reports.filter (fun r => decide (r.urgency_tier = "MEDIUM"))).length
  , low := (reports.filter (fun r => decide (r.urgency_tier = "LOW"))).length
  , needs_food := (reports.filter (fun r => !r.report.has_food)).length
  , needs_water := (reports.filter (fun r => !r.report.has_water)).length
  , medical_emergencies := (reports.filter (fun r => r.report.has_medical_emergency)).length
  , with_elderly := (reports.filter (fun r => r.report.has_elderly)).length
  , with_children := (reports.filter (fun r => r.report.has_children)).length
  , with_disabled := (reports.filter (fun r => r.report.has_disabled)).length
  , most_affected_districts := (sortD districtRankLt dstats).take 10
  , districts := dstats }

/-- The mutable cache triple of the IntelEngine singleton. -/
structure EngineState where
  cached_priorities : List ScoredReport
  cached_clusters : List Cluster
  cached_summary : Summary
deriving DecidableEq

/-- SOSFetcher._merge_reports: upsert each fetched report into the id-keyed cache
(update in place keeps the position, new ids append in arrival order, mirroring Python
dict semantics).  Ids are always present in the model, so the None-id skip of the source
has no counterpart.  The update-only-if-changed refinement of the source produces the
same final cache and only affects the returned counters, which are not modelled. -/
def mergeReports (cache newReports : List Report) : List Report :=
  newReports.foldl
    (fun c r =>
      if c.any (fun x => decide (x.id = r.id))
      then c.map (fun x => if x.id = r.id then r else x)
      else c ++ [r])
    cache

/-- SOSFetcher.fetch_sos_reports: a successful fetch (outcome = some data) merges into the
cache and returns the cache values; ANY failure is caught and the previous cache values
are returned (sos_fetcher.py lines 45-47) — the error is not propagated. -/
def fetchSosReports (outcome : Option (List Report)) (fcache : List Report) : List Report :=
  match outcome with
  | some data => mergeReports fcache data
  | none => fcache

/-- IntelEngine.run_analysis: fetch reports (the fetcher never raises; see
fetchSosReports), read the weather cache (get_all_weather reads cached data inside a
per-district try/except and never raises), run the three pure stages, then overwrite the
cached triple unconditionally.  The Except channel models exception propagation to the
caller; no code path produces an error.  The previous state is replaced without being
read. -/
def runAnalysis (outcome : Option (List Report)) (fcache : List Report)
    (ws : List Weather) (near : ScoredReport → ScoredReport → Bool)
    (elevOf : Rat → Rat → Option Int) (_st : EngineState) : Except Unit EngineState :=
  let reports := fetchSosReports outcome fcache
  let scored := computePriorities reports ws elevOf
  let clusters := detectClusters near scored
  let summary := generateSummary scored clusters ws
  Except.ok
    { cached_priorities := scored
    , cached_clusters := clusters
    , cached_summary := summary }

/-- Exact-key lookup in the per-district map, modelling dict.get(district). -/
def assocFind (l : List (String × DistrictStats)) (k : String) : Option DistrictStats :=
  (l.find? (fun p => decide (p.1 = k))).map Prod.snd

/-- Return value of IntelEngine.get_district_intel. -/
structure DistrictIntel where
  district : String
  reports : List ScoredReport
  clusters : List Cluster
  summary : Option DistrictStats
  report_count : Nat
  total_people : Int
deriving DecidableEq

/-- IntelEngine.get_district_intel: case-insensitive filter of the cached ranked list and
cluster list, plus the exact-key slice of the cached per-district summary map (the source
looks the slice up by the argument as given, not lowered). -/
def getDistrictIntel (st : EngineState) (district : String) : DistrictIntel :=
  let dl := asciiLower district
  let reports := st.cached_priorities.filter
    (fun r => decide (asciiLower (orElseStr r.report.district "") = dl))
  let clusters := st.cached_clusters.filter
    (fun c => decide (dl ∈ c.districts.map (fun d => asciiLower (orElseStr d ""))))
  { district := district
  , reports := reports
  , clusters := clusters
  , summary := assocFind st.cached_summary.districts district
  , report_count := reports.length
  , total_people := (reports.map (fun r => r.report.number_of_people.getD 1)).sum }

/-! ## Helper lemmas -/

/-- Stable insertion permutes: inserting x anywhere yields a permutation of x :: l. -/
lemma insertD_perm (lt : α → α → Bool) (x : α) :
    ∀ l : List α, List.Perm (insertD lt x l) (x :: l)
  | [] => List.Perm.refl _
  | y :: ys => by
    simp only [insertD]
    split
    · exact List.Perm.refl _
    · exact ((insertD_perm lt x ys).cons y).trans (List.Perm.swap x y ys)

/-- The insertion fold underlying sortD permutes its input onto the accumulator. -/
lemma sortD_foldl_perm (lt : α → α → Bool) :
    ∀ (l acc : List α),
      List.Perm (l.foldl (fun a x => insertD lt x a) acc) (l ++ acc)
  | [], _ => by simp
  | x :: xs, acc => by
    simp only [List.foldl_cons]
    exact (sortD_foldl_perm lt xs (insertD lt x acc)).trans
      (((insertD_perm lt x acc).append_left xs).trans List.perm_middle)

/-- sortD is a permutation of its input. -/
lemma sortD_perm (lt : α → α → Bool) (l : List α) : List.Perm (sortD lt l) l := by
  simpa using sortD_foldl_perm lt l []

/-- Concatenating the seed-anchored groups recovers the input, up to permutation,
whenever the fuel covers the list length. -/
lemma splitRuns_flatten_perm (p : α → α → Bool) :
    ∀ (fuel : Nat) (l : List α), l.length ≤ fuel →
      List.Perm (splitRuns p fuel l).flatten l := by
  intro fuel
  induction fuel with
  | zero =>
    intro l h
    have hl : l = [] := List.length_eq_zero.mp (Nat.le_zero.mp h)
    subst hl
    simp [splitRuns]
  | succ n ih =>
    intro l h
    cases l with
    | nil => simp [splitRuns]
    | cons x rest =>
      have hlen : (rest.filter (fun y => !(p x y))).length ≤ n :=
        le_trans (List.length_filter_le _ _) (Nat.succ_le_succ_iff.mp h)
      have h2 := ih _ hlen
      simp only [splitRuns, List.flatten_cons]
      exact ((h2.append_left (rest.filter (p x))).trans
        (List.filter_append_perm (p x) rest)).cons x

/-- The member-id lists of the clusters built from a group list enumerate, up to
permutation, the ids of the concatenation of the groups (whatever the name rule). -/
lemma clusters_reports_flatten_perm (gs : List (List ScoredReport))
    (nmf : List ScoredReport → Option String) :
    List.Perm (((sortD clusterLt (gs.map (fun g => buildCluster g (nmf g)))).map
        Cluster.reports).flatten)
      (gs.flatten.map (fun r => r.report.id)) := by
  have h1 := sortD_perm clusterLt (gs.map (fun g => buildCluster g (nmf g)))
  have h2 := (h1.map Cluster.reports).flatten
  have h3 : (gs.map (fun g => buildCluster g (nmf g))).map Cluster.reports
      = gs.map (fun g => g.map (fun r => r.report.id)) := by
    simp only [List.map_map]
    rfl
  rw [h3] at h2
  rw [← List.map_flatten] at h2
  exact h2

/-! ## Concrete inputs used by counterexamples and witnesses -/

/-- A neutral well-formed report; concrete inputs below override individual fields. -/
def baseReport : Report :=
  { id := 0
  , district := none
  , latitude := none
  , longitude := none
  , water_level := none
  , number_of_people := some 1
  , safe_for_hours := none
  , has_children := false
  , has_elderly := false
  , has_disabled := false
  , has_medical_emergency := false
  , has_food := true
  , has_water := true
  , has_power := true
  , battery_percent := some 100 }

/-- The underlying report of srGeo. -/
def rGeo : Report :=
  { baseReport with id := 1, district := some "Galle", latitude := some 6, longitude := some 80 }

/-- A scored report carrying coordinates. -/
def srGeo : ScoredReport :=
  { report := rGeo
  , urgency_score := 80
  , urgency_tier := "CRITICAL"
  , weather_risk := 0
  , elevation_m := none
  , elevation_risk := 0
  , elevation_risk_level := "UNKNOWN" }

/-- A scored report in the same district but with no coordinates. -/
def srNoGeo : ScoredReport :=
  { report := { baseReport with id := 2, district := some "Galle" }
  , urgency_score := 60
  , urgency_tier := "HIGH"
  , weather_risk := 0
  , elevation_m := none
  , elevation_risk := 0
  , elevation_risk_level := "UNKNOWN" }

/-! ## C1 — cluster membership -/

/-- Claim C1, counterexample: with one coordinate-bearing report (id 1) and one report
lacking coordinates (id 2) in the same set, the cluster builder returns clusters whose
member-id lists jointly contain only id 1 — the union does not equal the input id set, so
the no-coordinate report is dropped, contradicting the claimed strict partition.  The
proximity predicate is irrelevant here (a single geo report is never compared). -/
theorem detectClusters_drops_uncoordinated :
    ¬ List.Perm (((detectClusters (fun _ _ => true) [srGeo, srNoGeo]).map
        Cluster.reports).flatten)
      ([srGeo, srNoGeo].map (fun r => r.report.id))
    ∧ ((detectClusters (fun _ _ => true) [srGeo, srNoGeo]).map
        Cluster.reports).flatten = [1] := by
  constructor <;> decide

/-- Claim C1, amended: for every proximity predicate and input list, the member-id lists
of the returned clusters enumerate exactly once (as a multiset) the ids of the
coordinate-bearing reports when at least one report has truthy coordinates — reports
lacking coordinates are dropped in that case — and the ids of the whole input when no
report has coordinates (district fallback). -/
theorem detectClusters_partitions_geo_subset
    (near : ScoredReport → ScoredReport → Bool) (l : List ScoredReport) :
    List.Perm (((detectClusters near l).map Cluster.reports).flatten)
      ((if (l.filter hasCoordsS).isEmpty then l else l.filter hasCoordsS).map
        (fun r => r.report.id)) := by
  unfold detectClusters
  by_cases hg : (l.filter hasCoordsS).isEmpty
  · simp only [hg, if_true]
    unfold clusterByDistrict
    exact (clusters_reports_flatten_perm _ _).trans
      ((splitRuns_flatten_perm sameDistrict l.length l le_rfl).map _)
  · simp only [hg, if_false]
    exact (clusters_reports_flatten_perm _ _).trans
      ((splitRuns_flatten_perm near _ _ le_rfl).map _)

/-! ## C2 — urgency score bounds -/

/-- A report whose people count parsed to -100 (the SOS API field is passed through
int() with no lower bound); every other factor is at its neutral value. -/
def rPeopleNeg : Report :=
  { baseReport with id := 3, water_level := some "ANKLE", number_of_people := some (-100) }

/-- Claim C2, failing-input evaluation: the claimed invariant 0 ≤ score fails.  For a
report with water level ANKLE (5 points) and number_of_people = -100, the people factor
min(-100, 10) = -100 drives the sum to -95, and the cap min(score, 100) only bounds the
score from above, so the published urgency score is -95 < 0. -/
theorem urgency_score_can_be_negative :
    (scoreReport rPeopleNeg [] none).urgency_score = -95
    ∧ (scoreReport rPeopleNeg [] none).urgency_score < 0 := by
  constructor <;> decide

/-! ## C3 — defensive normalization of malformed fields -/

/-- A report whose people count parsed to -5. -/
def rPeopleNeg5 : Report :=
  { baseReport with id := 4, district := some "Galle", water_level := some "ROOF", number_of_people := some (-5) }

/-- Claim C3, failing-input evaluation: a negative people count is NOT floored to 1.
_parse_int passes -5 through (and maps a null to 0, not 1); the scoring people factor
becomes -5 instead of 1, the report scores 40 + (-5) = 35, and the people totals of both
the cluster builder and the summary count -5 for this report. -/
theorem people_count_not_floored :
    normalizeNumberOfPeople (some (some (-5))) = -5
    ∧ normalizeNumberOfPeople (some none) = 0
    ∧ peoplePoints (some (-5)) = -5
    ∧ (scoreReport rPeopleNeg5 [] none).urgency_score = 35
    ∧ (buildCluster [scoreReport rPeopleNeg5 [] none] none).total_people = -5
    ∧ (generateSummary [scoreReport rPeopleNeg5 [] none] [] []).total_people_affected = -5 := by
  refine ⟨rfl, rfl, by decide, by decide, by decide, by decide⟩

/-! ## C4 — failure semantics of run_analysis -/

/-- The summary of an empty run, used as an initial cache value. -/
def summary0 : Summary := generateSummary [] [] []

/-- An engine state holding results of a previous run. -/
def st0 : EngineState :=
  { cached_priorities := [srGeo], cached_clusters := [], cached_summary := summary0 }

/-- Claim C4, counterexample: when the report fetch fails (outcome = none) and the
fetcher cache is empty, run_analysis does not surface any failure — it returns ok — and
it replaces the previously cached ranked list [srGeo] with the empty result of analyzing
the stale empty fetcher cache, so the previous cache is not left untouched. -/
theorem runAnalysis_publishes_after_fetch_failure :
    runAnalysis none [] [] (fun _ _ => true) (fun _ _ => none) st0
      = Except.ok { cached_priorities := [], cached_clusters := [], cached_summary := summary0 }
    ∧ st0.cached_priorities ≠ ([] : List ScoredReport) :=
  ⟨rfl, by decide⟩

/-- Claim C4, amended: a failing report fetch is swallowed inside the fetcher, which
returns its previously cached reports; run_analysis then proceeds and unconditionally
replaces all three cached values with the analysis of that stale (possibly empty) report
set, and no invocation of run_analysis ever surfaces an error to its caller (the weather
read is cache-only and total). -/
theorem runAnalysis_fetch_failure_uses_stale_cache
    (fcache : List Report) (ws : List Weather)
    (near : ScoredReport → ScoredReport → Bool)
    (elevOf : Rat → Rat → Option Int) (st : EngineState) :
    (runAnalysis none fcache ws near elevOf st
      = Except.ok
        { cached_priorities := computePriorities fcache ws elevOf
        , cached_clusters := detectClusters near (computePriorities fcache ws elevOf)
        , cached_summary :=
            generateSummary (computePriorities fcache ws elevOf)
              (detectClusters near (computePriorities fcache ws elevOf)) ws })
    ∧ ∀ outcome, ∃ st2, runAnalysis outcome fcache ws near elevOf st = Except.ok st2 :=
  ⟨rfl, fun _ => ⟨_, rfl⟩⟩

/-! ## C5 — urgency tier boundaries -/

/-- Claim C5: the tier of every scored report is computed from its capped score with
lower-inclusive boundaries — at least 70 is CRITICAL, 50 to 69 is HIGH, 30 to 49 is
MEDIUM, below 30 is LOW — and the exact boundary values behave as claimed
(70 CRITICAL, 69 HIGH, 50 HIGH, 49 MEDIUM, 30 MEDIUM, 29 LOW). -/
theorem urgency_tier_boundaries :
    (∀ (r : Report) (ws : List Weather) (e : Option Int),
      (scoreReport r ws e).urgency_tier = urgencyTier (scoreReport r ws e).urgency_score)
    ∧ (∀ s : Int,
        (70 ≤ s → urgencyTier s = "CRITICAL")
        ∧ (50 ≤ s → s < 70 → urgencyTier s = "HIGH")
        ∧ (30 ≤ s → s < 50 → urgencyTier s = "MEDIUM")
        ∧ (s < 30 → urgencyTier s = "LOW"))
    ∧ urgencyTier 70 = "CRITICAL" ∧ urgencyTier 69 = "HIGH" ∧ urgencyTier 50 = "HIGH"
    ∧ urgencyTier 49 = "MEDIUM" ∧ urgencyTier 30 = "MEDIUM" ∧ urgencyTier 29 = "LOW" := by
  refine ⟨fun _ _ _ => rfl, fun s => ?_,
    by decide, by decide, by decide, by decide, by decide, by decide⟩
  refine ⟨fun h1 => ?_, fun h1 h2 => ?_, fun h1 h2 => ?_, fun h1 => ?_⟩ <;>
    unfold urgencyTier <;> split_ifs <;> first | rfl | omega

/-- Witness for C5 at the concrete boundary score 70. -/
theorem urgency_tier_boundaries_witness : urgencyTier 70 = "CRITICAL" :=
  (urgency_tier_boundaries.2.1 70).1 (by decide)

/-! ## C6 — empty input -/

/-- Claim C6: on an empty report set (for any weather snapshot, proximity predicate,
elevation assignment and prior state) the pipeline completes without any failure and
publishes an empty ranked list, an empty cluster list, and a summary whose total_reports
and every other count are zero, with empty district maps. -/
theorem runAnalysis_empty_input (ws : List Weather)
    (near : ScoredReport → ScoredReport → Bool)
    (elevOf : Rat → Rat → Option Int) (st : EngineState) :
    runAnalysis (some []) [] ws near elevOf st
      = Except.ok
        { cached_priorities := []
        , cached_clusters := []
        , cached_summary :=
          { total_reports := 0
          , total_people_affected := 0
          , total_clusters := 0
          , critical := 0
          , high := 0
          , medium := 0
          , low := 0
          , needs_food := 0
          , needs_water := 0
          , medical_emergencies := 0
          , with_elderly := 0
          , with_children := 0
          , with_disabled := 0
          , most_affected_districts := []
          , districts := [] } } := rfl

/-! ## C7 — per-district average urgency -/

/-- Elements of the deduplicated list come from the input list. -/
lemma mem_of_firstDedupAux [DecidableEq α] (seen : List α) :
    ∀ (l : List α) (a : α), a ∈ firstDedupAux seen l → a ∈ l := by
  intro l
  induction l generalizing seen with
  | nil => intro a h; simp [firstDedupAux] at h
  | cons x xs ih =>
    intro a h
    simp only [firstDedupAux] at h
    split at h
    · exact List.mem_cons_of_mem x (ih _ a h)
    · rcases List.mem_cons.mp h with h1 | h1
      · exact h1 ▸ List.mem_cons_self x xs
      · exact List.mem_cons_of_mem x (ih _ a h1)

/-- Elements of firstDedup come from the input list. -/
lemma mem_of_firstDedup [DecidableEq α] {l : List α} {a : α}
    (h : a ∈ firstDedup l) : a ∈ l :=
  mem_of_firstDedupAux [] l a h

/-- A report whose district field is the empty string (grouped under "Unknown"). -/
def rEmptyDistrict : Report :=
  { baseReport with id := 7, district := some "", water_level := some "ROOF" }

/-- Its scored form: ROOF (40) + people (1) = 41, tier MEDIUM. -/
def srEmptyDistrict : ScoredReport := scoreReport rEmptyDistrict [] none

/-- Claim C7, counterexample: a single report with district "" and urgency score 41 is
grouped under the "Unknown" bucket (count 1), yet the published avg_urgency of that
bucket is 0, not 41 = 41/1, because the numerator of line 391 filters by the literal
comparison district == "Unknown", which the empty-string member fails. -/
theorem avg_urgency_counterexample :
    (generateSummary [srEmptyDistrict] [] []).districts.map
        (fun p => (p.1, p.2.count, p.2.avg_urgency))
      = [("Unknown", 1, 0)]
    ∧ srEmptyDistrict.urgency_score = 41 := by
  constructor
  · have h : (generateSummary [srEmptyDistrict] [] []).districts
        = [("Unknown", statsFor "Unknown" [srEmptyDistrict] [])] := rfl
    have hc : (statsFor "Unknown" [srEmptyDistrict] []).count = 1 := by decide
    have ha : (statsFor "Unknown" [srEmptyDistrict] []).avg_urgency = 0 := by
      show round1 (((0 : Int) : Rat) / ((1 : Nat) : Rat)) = 0
      norm_num
      unfold round1 roundHalfEven ratFloor
      norm_num
    rw [h]
    simp [hc, ha]
  · decide

/-- Claim C7, amended: for every district bucket (d, stats) of the generated summary,
avg_urgency equals round-to-one-decimal of the sum of the urgency scores of the reports
whose district field is literally d, divided by the bucket count — so members grouped
under "Unknown" through an empty or missing district are counted in the denominator but
excluded from the numerator. -/
theorem avg_urgency_literal_district_filter
    (reports : List ScoredReport) (clusters : List Cluster) (ws : List Weather)
    (d : String) (stats : DistrictStats)
    (hmem : (d, stats) ∈ (generateSummary reports clusters ws).districts) :
    stats.avg_urgency
      = round1 (((((reports.filter (fun r => decide (r.report.district = some d))).map
          (fun r => r.urgency_score)).sum : Int) : Rat) / (stats.count : Rat)) := by
  simp only [generateSummary] at hmem
  obtain ⟨d0, hd0, heq⟩ := List.mem_map.mp hmem
  obtain ⟨hd, hstats⟩ := Prod.mk.injEq .. ▸ heq
  subst hd
  subst hstats
  have hkeys : d0 ∈ reports.map summaryKey := mem_of_firstDedup hd0
  obtain ⟨r, hr, hkey⟩ := List.mem_map.mp hkeys
  have hpos : 0 < (reports.filter (fun r => decide (summaryKey r = d0))).length :=
    List.length_pos_of_mem (List.mem_filter.mpr ⟨hr, by simp [hkey]⟩)
  show (if 0 < (reports.filter (fun r => decide (summaryKey r = d0))).length
      then round1 (((((reports.filter
            (fun r => decide (r.report.district = some d0))).map
              (fun r => r.urgency_score)).sum : Int) : Rat)
          / (((reports.filter (fun r => decide (summaryKey r = d0))).length : Nat) : Rat))
      else 0) = _
  rw [if_pos hpos]
  rfl

/-- Witness for C7 (amended) at the concrete one-report input of the counterexample. -/
theorem avg_urgency_literal_district_filter_witness :
    (statsFor "Unknown" [srEmptyDistrict] []).avg_urgency
      = round1 ((((([srEmptyDistrict].filter
            (fun r => decide (r.report.district = some "Unknown"))).map
          (fun r => r.urgency_score)).sum : Int) : Rat)
        / ((statsFor "Unknown" [srEmptyDistrict] []).count : Rat)) := by
  have hmem : ("Unknown", statsFor "Unknown" [srEmptyDistrict] [])
      ∈ (generateSummary [srEmptyDistrict] [] []).districts := by
    have h : (generateSummary [srEmptyDistrict] [] []).districts
        = [("Unknown", statsFor "Unknown" [srEmptyDistrict] [])] := rfl
    rw [h]
    exact List.mem_singleton.mpr rfl
  exact avg_urgency_literal_district_filter [srEmptyDistrict] [] [] "Unknown"
    (statsFor "Unknown" [srEmptyDistrict] []) hmem

/-! ## C8 — district intel filtering -/

/-- Claim C8: get_district_intel selects from the cached ranked list exactly the reports
whose district (None and "" read as "") matches the argument case-insensitively, selects
from the cached cluster list exactly the clusters one of whose member districts matches
the argument case-insensitively, and returns alongside them the slice of the cached
summary per-district map stored under the argument key. -/
theorem getDistrictIntel_filters (st : EngineState) (q : String) :
    (∀ r, r ∈ (getDistrictIntel st q).reports
      ↔ (r ∈ st.cached_priorities
          ∧ asciiLower (orElseStr r.report.district "") = asciiLower q))
    ∧ (∀ c, c ∈ (getDistrictIntel st q).clusters
      ↔ (c ∈ st.cached_clusters
          ∧ asciiLower q ∈ c.districts.map (fun d => asciiLower (orElseStr d ""))))
    ∧ (getDistrictIntel st q).summary = assocFind st.cached_summary.districts q := by
  refine ⟨fun r => ?_, fun c => ?_, rfl⟩
  · simp [getDistrictIntel, List.mem_filter]
  · simp [getDistrictIntel, List.mem_filter]

/-! ## C9 — monotonicity of the score in each factor -/

/-- The water-level severity ladder ANKLE < WAIST < CHEST < NECK < ROOF, indexed. -/
def sevLevel : Nat → String
  | 0 => "ANKLE"
  | 1 => "WAIST"
  | 2 => "CHEST"
  | 3 => "NECK"
  | _ => "ROOF"

/-- Water-level points are monotone along the severity ladder. -/
lemma waterLevelPoints_sevLevel_mono :
    ∀ i j : Nat, i ≤ j →
      waterLevelPoints (some (sevLevel i)) ≤ waterLevelPoints (some (sevLevel j)) := by
  have step : ∀ n : Nat,
      waterLevelPoints (some (sevLevel n)) ≤ waterLevelPoints (some (sevLevel (n + 1))) := by
    intro n
    rcases n with _ | _ | _ | _ | m
    · decide
    · decide
    · decide
    · decide
    · exact le_refl _
  exact fun i j h => monotone_nat_of_le_succ step h

/-- Time-pressure points never decrease when safe_for_hours decreases. -/
lemma timePressurePoints_anti (h1 h2 : Rat) (h : h1 ≤ h2) :
    timePressurePoints (some h2) ≤ timePressurePoints (some h1) := by
  show (if h2 ≤ 1 then (20 : Int) else if h2 ≤ 3 then 15
      else if h2 ≤ 6 then 10 else if h2 ≤ 12 then 5 else 0)
    ≤ (if h1 ≤ 1 then (20 : Int) else if h1 ≤ 3 then 15
      else if h1 ≤ 6 then 10 else if h1 ≤ 12 then 5 else 0)
  split_ifs <;> first | omega | (exfalso; linarith)

/-- Weather-risk points are monotone in the forecast rain. -/
lemma weatherRiskPoints_mono (x y : Rat) (h : x ≤ y) :
    weatherRiskPoints x ≤ weatherRiskPoints y := by
  unfold weatherRiskPoints
  split_ifs <;> first | omega | (exfalso; linarith)

/-- The forecast rain the scoring loop effectively buckets for a report: 0 when the
district has no weather entry, otherwise the entry value with None defaulted to 0. -/
def effectiveForecastRain (ws : List Weather) (r : Report) : Rat :=
  match weatherFor ws (reportKey r) with
  | none => 0
  | some w => w.forecast_precip_24h_mm.getD 0

/-- The weather addend of the score equals the bucketing of the effective rain. -/
lemma weatherRiskOf_eq_points (ws : List Weather) (r : Report) :
    weatherRiskOf (weatherFor ws (reportKey r))
      = weatherRiskPoints (effectiveForecastRain ws r) := by
  unfold weatherRiskOf effectiveForecastRain
  cases weatherFor ws (reportKey r) with
  | none =>
    show (0 : Int) = weatherRiskPoints 0
    unfold weatherRiskPoints
    norm_num
  | some w => rfl

/-- Elevation-risk points never decrease when the resolved elevation decreases. -/
lemma elevationRisk_anti (e1 e2 : Int) (h : e1 ≤ e2) :
    (calculateElevationRisk (some e2)).1 ≤ (calculateElevationRisk (some e1)).1 := by
  show (if e2 < 5 then ((15 : Int), "CRITICAL")
      else if e2 < 15 then (10, "HIGH")
      else if e2 < 50 then (5, "MEDIUM")
      else if e2 < 100 then (2, "LOW")
      else (0, "MINIMAL")).1
    ≤ (if e1 < 5 then ((15 : Int), "CRITICAL")
      else if e1 < 15 then (10, "HIGH")
      else if e1 < 50 then (5, "MEDIUM")
      else if e1 < 100 then (2, "LOW")
      else (0, "MINIMAL")).1
  split_ifs <;> dsimp only <;> omega

/-- The cap at 100 preserves factor-sum inequalities. -/
lemma score_mono_of_preCap {r1 r2 : Report} {ws1 ws2 : List Weather} {e1 e2 : Option Int}
    (h : preCapScore r1 ws1 e1 ≤ preCapScore r2 ws2 e2) :
    (scoreReport r1 ws1 e1).urgency_score ≤ (scoreReport r2 ws2 e2).urgency_score :=
  min_le_min h le_rfl

/-- preCapScore with an overridden water level, factored. -/
lemma preCap_split_water (r : Report) (ws : List Weather) (e : Option Int)
    (wl : Option String) :
    preCapScore { r with water_level := wl } ws e
      = waterLevelPoints wl + (preCapScore r ws e - waterLevelPoints r.water_level) := by
  have h1 : preCapScore { r with water_level := wl } ws e
      = waterLevelPoints wl + vulnerabilityPoints r + timePressurePoints r.safe_for_hours
        + peoplePoints r.number_of_people + resourcePoints r
        + weatherRiskOf (weatherFor ws (reportKey r))
        + (calculateElevationRisk (if hasCoords r then e else none)).1 := rfl
  have h2 : preCapScore r ws e
      = waterLevelPoints r.water_level + vulnerabilityPoints r
        + timePressurePoints r.safe_for_hours + peoplePoints r.number_of_people
        + resourcePoints r + weatherRiskOf (weatherFor ws (reportKey r))
        + (calculateElevationRisk (if hasCoords r then e else none)).1 := rfl
  omega

/-- preCapScore with an overridden safe_for_hours, factored. -/
lemma preCap_split_time (r : Report) (ws : List Weather) (e : Option Int)
    (sh : Option Rat) :
    preCapScore { r with safe_for_hours := sh } ws e
      = timePressurePoints sh
        + (preCapScore r ws e - timePressurePoints r.safe_for_hours) := by
  have h1 : preCapScore { r with safe_for_hours := sh } ws e
      = waterLevelPoints r.water_level + vulnerabilityPoints r + timePressurePoints sh
        + peoplePoints r.number_of_people + resourcePoints r
        + weatherRiskOf (weatherFor ws (reportKey r))
        + (calculateElevationRisk (if hasCoords r then e else none)).1 := rfl
  have h2 : preCapScore r ws e
      = waterLevelPoints r.water_level + vulnerabilityPoints r
        + timePressurePoints r.safe_for_hours + peoplePoints r.number_of_people
        + resourcePoints r + weatherRiskOf (weatherFor ws (reportKey r))
        + (calculateElevationRisk (if hasCoords r then e else none)).1 := rfl
  omega

/-- preCapScore with an overridden people count, factored. -/
lemma preCap_split_people (r : Report) (ws : List Weather) (e : Option Int)
    (p : Option Int) :
    preCapScore { r with number_of_people := p } ws e
      = peoplePoints p + (preCapScore r ws e - peoplePoints r.number_of_people) := by
  have h1 : preCapScore { r with number_of_people := p } ws e
      = waterLevelPoints r.water_level + vulnerabilityPoints r
        + timePressurePoints r.safe_for_hours + peoplePoints p + resourcePoints r
        + weatherRiskOf (weatherFor ws (reportKey r))
        + (calculateElevationRisk (if hasCoords r then e else none)).1 := rfl
  have h2 : preCapScore r ws e
      = waterLevelPoints r.water_level + vulnerabilityPoints r
        + timePressurePoints r.safe_for_hours + peoplePoints r.number_of_people
        + resourcePoints r + weatherRiskOf (weatherFor ws (reportKey r))
        + (calculateElevationRisk (if hasCoords r then e else none)).1 := rfl
  omega

/-- preCapScore with an overridden medical-emergency flag, factored. -/
lemma preCap_split_medical (r : Report) (ws : List Weather) (e : Option Int) (b : Bool) :
    preCapScore { r with has_medical_emergency := b } ws e
      = (if b then 15 else 0)
        + (preCapScore r ws e - (if r.has_medical_emergency then 15 else 0)) := by
  have h1 : preCapScore { r with has_medical_emergency := b } ws e
      = waterLevelPoints r.water_level
        + ((if b then 15 else 0) + (if r.has_disabled then 8 else 0)
            + (if r.has_elderly then 5 else 0) + (if r.has_children then 2 else 0))
        + timePressurePoints r.safe_for_hours + peoplePoints r.number_of_people
        + resourcePoints r + weatherRiskOf (weatherFor ws (reportKey r))
        + (calculateElevationRisk (if hasCoords r then e else none)).1 := rfl
  have h2 : preCapScore r ws e
      = waterLevelPoints r.water_level
        + ((if r.has_medical_emergency then 15 else 0) + (if r.has_disabled then 8 else 0)
            + (if r.has_elderly then 5 else 0) + (if r.has_children then 2 else 0))
        + timePressurePoints r.safe_for_hours + peoplePoints r.number_of_people
        + resourcePoints r + weatherRiskOf (weatherFor ws (reportKey r))
        + (calculateElevationRisk (if hasCoords r then e else none)).1 := rfl
  omega

/-- preCapScore with an overridden disabled flag, factored. -/
lemma preCap_split_disabled (r : Report) (ws : List Weather) (e : Option Int) (b : Bool) :
    preCapScore { r with has_disabled := b } ws e
      = (if b then 8 else 0)
        + (preCapScore r ws e - (if r.has_disabled then 8 else 0)) := by
  have h1 : preCapScore { r with has_disabled := b } ws e
      = waterLevelPoints r.water_level
        + ((if r.has_medical_emergency then 15 else 0) + (if b then 8 else 0)
            + (if r.has_elderly then 5 else 0) + (if r.has_children then 2 else 0))
        + timePressurePoints r.safe_for_hours + peoplePoints r.number_of_people
        + resourcePoints r + weatherRiskOf (weatherFor ws (reportKey r))
        + (calculateElevationRisk (if hasCoords r then e else none)).1 := rfl
  have h2 : preCapScore r ws e
      = waterLevelPoints r.water_level
        + ((if r.has_medical_emergency then 15 else 0) + (if r.has_disabled then 8 else 0)
            + (if r.has_elderly then 5 else 0) + (if r.has_children then 2 else 0))
        + timePressurePoints r.safe_for_hours + peoplePoints r.number_of_people
        + resourcePoints r + weatherRiskOf (weatherFor ws (reportKey r))
        + (calculateElevationRisk (if hasCoords r then e else none)).1 := rfl
  omega

/-- preCapScore with an overridden elderly flag, factored. -/
lemma preCap_split_elderly (r : Report) (ws : List Weather) (e : Option Int) (b : Bool) :
    preCapScore { r with has_elderly := b } ws e
      = (if b then 5 else 0)
        + (preCapScore r ws e - (if r.has_elderly then 5 else 0)) := by
  have h1 : preCapScore { r with has_elderly := b } ws e
      = waterLevelPoints r.water_level
        + ((if r.has_medical_emergency then 15 else 0) + (if r.has_disabled then 8 else 0)
            + (if b then 5 else 0) + (if r.has_children then 2 else 0))
        + timePressurePoints r.safe_for_hours + peoplePoints r.number_of_people
        + resourcePoints r + weatherRiskOf (weatherFor ws (reportKey r))
        + (calculateElevationRisk (if hasCoords r then e else none)).1 := rfl
  have h2 : preCapScore r ws e
      = waterLevelPoints r.water_level
        + ((if r.has_medical_emergency then 15 else 0) + (if r.has_disabled then 8 else 0)
            + (if r.has_elderly then 5 else 0) + (if r.has_children then 2 else 0))
        + timePressurePoints r.safe_for_hours + peoplePoints r.number_of_people
        + resourcePoints r + weatherRiskOf (weatherFor ws (reportKey r))
        + (calculateElevationRisk (if hasCoords r then e else none)).1 := rfl
  omega

/-- preCapScore with an overridden children flag, factored. -/
lemma preCap_split_children (r : Report) (ws : List Weather) (e : Option Int) (b : Bool) :
    preCapScore { r with has_children := b } ws e
      = (if b then 2 else 0)
        + (preCapScore r ws e - (if r.has_children then 2 else 0)) := by
  have h1 : preCapScore { r with has_children := b } ws e
      = waterLevelPoints r.water_level
        + ((if r.has_medical_emergency then 15 else 0) + (if r.has_disabled then 8 else 0)
            + (if r.has_elderly then 5 else 0) + (if b then 2 else 0))
        + timePressurePoints r.safe_for_hours + peoplePoints r.number_of_people
        + resourcePoints r + weatherRiskOf (weatherFor ws (reportKey r))
        + (calculateElevationRisk (if hasCoords r then e else none)).1 := rfl
  have h2 : preCapScore r ws e
      = waterLevelPoints r.water_level
        + ((if r.has_medical_emergency then 15 else 0) + (if r.has_disabled then 8 else 0)
            + (if r.has_elderly then 5 else 0) + (if r.has_children then 2 else 0))
        + timePressurePoints r.safe_for_hours + peoplePoints r.number_of_people
        + resourcePoints r + weatherRiskOf (weatherFor ws (reportKey r))
        + (calculateElevationRisk (if hasCoords r then e else none)).1 := rfl
  omega

/-- preCapScore with an overridden food flag, factored. -/
lemma preCap_split_food (r : Report) (ws : List Weather) (e : Option Int) (b : Bool) :
    preCapScore { r with has_food := b } ws e
      = (if b then 0 else 3) + (preCapScore r ws e - noFoodPoints r) := by
  have h1 : preCapScore { r with has_food := b } ws e
      = waterLevelPoints r.water_level + vulnerabilityPoints r
        + timePressurePoints r.safe_for_hours + peoplePoints r.number_of_people
        + ((if b then 0 else 3) + noWaterPoints r + lowBatteryPoints r)
        + weatherRiskOf (weatherFor ws (reportKey r))
        + (calculateElevationRisk (if hasCoords r then e else none)).1 := rfl
  have h2 : preCapScore r ws e
      = waterLevelPoints r.water_level + vulnerabilityPoints r
        + timePressurePoints r.safe_for_hours + peoplePoints r.number_of_people
        + (noFoodPoints r + noWaterPoints r + lowBatteryPoints r)
        + weatherRiskOf (weatherFor ws (reportKey r))
        + (calculateElevationRisk (if hasCoords r then e else none)).1 := rfl
  omega

/-- preCapScore with an overridden water-resource flag, factored. -/
lemma preCap_split_haswater (r : Report) (ws : List Weather) (e : Option Int) (b : Bool) :
    preCapScore { r with has_water := b } ws e
      = (if b then 0 else 5) + (preCapScore r ws e - noWaterPoints r) := by
  have h1 : preCapScore { r with has_water := b } ws e
      = waterLevelPoints r.water_level + vulnerabilityPoints r
        + timePressurePoints r.safe_for_hours + peoplePoints r.number_of_people
        + (noFoodPoints r + (if b then 0 else 5) + lowBatteryPoints r)
        + weatherRiskOf (weatherFor ws (reportKey r))
        + (calculateElevationRisk (if hasCoords r then e else none)).1 := rfl
  have h2 : preCapScore r ws e
      = waterLevelPoints r.water_level + vulnerabilityPoints r
        + timePressurePoints r.safe_for_hours + peoplePoints r.number_of_people
        + (noFoodPoints r + noWaterPoints r + lowBatteryPoints r)
        + weatherRiskOf (weatherFor ws (reportKey r))
        + (calculateElevationRisk (if hasCoords r then e else none)).1 := rfl
  omega

/-- preCapScore with an overridden power flag, factored. -/
lemma preCap_split_power (r : Report) (ws : List Weather) (e : Option Int) (b : Bool) :
    preCapScore { r with has_power := b } ws e
      = (if b = false ∧ r.battery_percent.getD 0 < 20 then 2 else 0)
        + (preCapScore r ws e - lowBatteryPoints r) := by
  have h1 : preCapScore { r with has_power := b } ws e
      = waterLevelPoints r.water_level + vulnerabilityPoints r
        + timePressurePoints r.safe_for_hours + peoplePoints r.number_of_people
        + (noFoodPoints r + noWaterPoints r
            + (if b = false ∧ r.battery_percent.getD 0 < 20 then 2 else 0))
        + weatherRiskOf (weatherFor ws (reportKey r))
        + (calculateElevationRisk (if hasCoords r then e else none)).1 := rfl
  have h2 : preCapScore r ws e
      = waterLevelPoints r.water_level + vulnerabilityPoints r
        + timePressurePoints r.safe_for_hours + peoplePoints r.number_of_people
        + (noFoodPoints r + noWaterPoints r + lowBatteryPoints r)
        + weatherRiskOf (weatherFor ws (reportKey r))
        + (calculateElevationRisk (if hasCoords r then e else none)).1 := rfl
  omega

/-- preCapScore with an overridden battery percentage, factored. -/
lemma preCap_split_battery (r : Report) (ws : List Weather) (e : Option Int)
    (bp : Option Int) :
    preCapScore { r with battery_percent := bp } ws e
      = (if r.has_power = false ∧ bp.getD 0 < 20 then 2 else 0)
        + (preCapScore r ws e - lowBatteryPoints r) := by
  have h1 : preCapScore { r with battery_percent := bp } ws e
      = waterLevelPoints r.water_level + vulnerabilityPoints r
        + timePressurePoints r.safe_for_hours + peoplePoints r.number_of_people
        + (noFoodPoints r + noWaterPoints r
            + (if r.has_power = false ∧ bp.getD 0 < 20 then 2 else 0))
        + weatherRiskOf (weatherFor ws (reportKey r))
        + (calculateElevationRisk (if hasCoords r then e else none)).1 := rfl
  have h2 : preCapScore r ws e
      = waterLevelPoints r.water_level + vulnerabilityPoints r
        + timePressurePoints r.safe_for_hours + peoplePoints r.number_of_people
        + (noFoodPoints r + noWaterPoints r + lowBatteryPoints r)
        + weatherRiskOf (weatherFor ws (reportKey r))
        + (calculateElevationRisk (if hasCoords r then e else none)).1 := rfl
  omega

/-- preCapScore factored against the weather-free score: the weather list only enters
through the bucketed effective rain. -/
lemma preCap_split_weather (r : Report) (ws : List Weather) (e : Option Int) :
    preCapScore r ws e
      = weatherRiskPoints (effectiveForecastRain ws r) + preCapScore r [] e := by
  have h1 : preCapScore r ws e
      = waterLevelPoints r.water_level + vulnerabilityPoints r
        + timePressurePoints r.safe_for_hours + peoplePoints r.number_of_people
        + resourcePoints r + weatherRiskOf (weatherFor ws (reportKey r))
        + (calculateElevationRisk (if hasCoords r then e else none)).1 := rfl
  have h2 : preCapScore r [] e
      = waterLevelPoints r.water_level + vulnerabilityPoints r
        + timePressurePoints r.safe_for_hours + peoplePoints r.number_of_people
        + resourcePoints r + (0 : Int)
        + (calculateElevationRisk (if hasCoords r then e else none)).1 := rfl
  rw [weatherRiskOf_eq_points] at h1
  omega

/-- preCapScore factored on the elevation addend. -/
lemma preCap_split_elev (r : Report) (ws : List Weather) (e : Option Int) :
    preCapScore r ws e
      = (calculateElevationRisk (if hasCoords r then e else none)).1
        + preCapScore { r with latitude := none } ws none := by
  have h1 : preCapScore r ws e
      = waterLevelPoints r.water_level + vulnerabilityPoints r
        + timePressurePoints r.safe_for_hours + peoplePoints r.number_of_people
        + resourcePoints r + weatherRiskOf (weatherFor ws (reportKey r))
        + (calculateElevationRisk (if hasCoords r then e else none)).1 := rfl
  have h2 : preCapScore { r with latitude := none } ws none
      = waterLevelPoints r.water_level + vulnerabilityPoints r
        + timePressurePoints r.safe_for_hours + peoplePoints r.number_of_people
        + resourcePoints r + weatherRiskOf (weatherFor ws (reportKey r))
        + (calculateElevationRisk none).1 := rfl
  have h3 : (calculateElevationRisk (none : Option Int)).1 = 0 := rfl
  omega

/-- Claim C9: the urgency score is monotone non-decreasing in each independent factor,
all others held fixed — raising water-level severity along ANKLE, WAIST, CHEST, NECK,
ROOF; setting any vulnerability flag; lowering safe_for_hours; raising the people count;
removing the food, water or power resource; raising the effective forecast rain for the
district of the report; and lowering the resolved elevation. -/
theorem urgency_score_monotone :
    (∀ (r : Report) (ws : List Weather) (e : Option Int) (i j : Nat), i ≤ j →
      (scoreReport { r with water_level := some (sevLevel i) } ws e).urgency_score
        ≤ (scoreReport { r with water_level := some (sevLevel j) } ws e).urgency_score)
    ∧ (∀ (r : Report) (ws : List Weather) (e : Option Int),
      (scoreReport r ws e).urgency_score
        ≤ (scoreReport { r with has_medical_emergency := true } ws e).urgency_score)
    ∧ (∀ (r : Report) (ws : List Weather) (e : Option Int),
      (scoreReport r ws e).urgency_score
        ≤ (scoreReport { r with has_disabled := true } ws e).urgency_score)
    ∧ (∀ (r : Report) (ws : List Weather) (e : Option Int),
      (scoreReport r ws e).urgency_score
        ≤ (scoreReport { r with has_elderly := true } ws e).urgency_score)
    ∧ (∀ (r : Report) (ws : List Weather) (e : Option Int),
      (scoreReport r ws e).urgency_score
        ≤ (scoreReport { r with has_children := true } ws e).urgency_score)
    ∧ (∀ (r : Report) (ws : List Weather) (e : Option Int) (h1 h2 : Rat), h1 ≤ h2 →
      (scoreReport { r with safe_for_hours := some h2 } ws e).urgency_score
        ≤ (scoreReport { r with safe_for_hours := some h1 } ws e).urgency_score)
    ∧ (∀ (r : Report) (ws : List Weather) (e : Option Int) (p1 p2 : Int), p1 ≤ p2 →
      (scoreReport { r with number_of_people := some p1 } ws e).urgency_score
        ≤ (scoreReport { r with number_of_people := some p2 } ws e).urgency_score)
    ∧ (∀ (r : Report) (ws : List Weather) (e : Option Int),
      (scoreReport r ws e).urgency_score
        ≤ (scoreReport { r with has_food := false } ws e).urgency_score)
    ∧ (∀ (r : Report) (ws : List Weather) (e : Option Int),
      (scoreReport r ws e).urgency_score
        ≤ (scoreReport { r with has_water := false } ws e).urgency_score)
    ∧ (∀ (r : Report) (ws : List Weather) (e : Option Int),
      (scoreReport r ws e).urgency_score
        ≤ (scoreReport { r with has_power := false } ws e).urgency_score)
    ∧ (∀ (r : Report) (ws1 ws2 : List Weather) (e : Option Int),
      effectiveForecastRain ws1 r ≤ effectiveForecastRain ws2 r →
      (scoreReport r ws1 e).urgency_score ≤ (scoreReport r ws2 e).urgency_score)
    ∧ (∀ (r : Report) (ws : List Weather) (e1 e2 : Int), e1 ≤ e2 →
      (scoreReport r ws (some e2)).urgency_score
        ≤ (scoreReport r ws (some e1)).urgency_score) := by
  refine ⟨?_, ?_, ?_, ?_, ?_, ?_, ?_, ?_, ?_, ?_, ?_, ?_⟩
  · intro r ws e i j hij
    apply score_mono_of_preCap
    rw [preCap_split_water r ws e (some (sevLevel i)),
      preCap_split_water r ws e (some (sevLevel j))]
    have h := waterLevelPoints_sevLevel_mono i j hij
    omega
  · intro r ws e
    apply score_mono_of_preCap
    rw [preCap_split_medical r ws e true]
    have e1 : (if (true : Bool) then (15 : Int) else 0) = 15 := rfl
    rw [e1]
    have h : (if r.has_medical_emergency then (15 : Int) else 0) ≤ 15 := by
      split_ifs <;> omega
    omega
  · intro r ws e
    apply score_mono_of_preCap
    rw [preCap_split_disabled r ws e true]
    have e1 : (if (true : Bool) then (8 : Int) else 0) = 8 := rfl
    rw [e1]
    have h : (if r.has_disabled then (8 : Int) else 0) ≤ 8 := by
      split_ifs <;> omega
    omega
  · intro r ws e
    apply score_mono_of_preCap
    rw [preCap_split_elderly r ws e true]
    have e1 : (if (true : Bool) then (5 : Int) else 0) = 5 := rfl
    rw [e1]
    have h : (if r.has_elderly then (5 : Int) else 0) ≤ 5 := by
      split_ifs <;> omega
    omega
  · intro r ws e
    apply score_mono_of_preCap
    rw [preCap_split_children r ws e true]
    have e1 : (if (true : Bool) then (2 : Int) else 0) = 2 := rfl
    rw [e1]
    have h : (if r.has_children then (2 : Int) else 0) ≤ 2 := by
      split_ifs <;> omega
    omega
  · intro r ws e h1 h2 hh
    apply score_mono_of_preCap
    rw [preCap_split_time r ws e (some h2), preCap_split_time r ws e (some h1)]
    have h := timePressurePoints_anti h1 h2 hh
    omega
  · intro r ws e p1 p2 hp
    apply score_mono_of_preCap
    rw [preCap_split_people r ws e (some p1), preCap_split_people r ws e (some p2)]
    have h : peoplePoints (some p1) ≤ peoplePoints (some p2) := by
      show min p1 10 ≤ min p2 10
      exact min_le_min hp le_rfl
    omega
  · intro r ws e
    apply score_mono_of_preCap
    rw [preCap_split_food r ws e false]
    have e1 : (if (false : Bool) then (0 : Int) else 3) = 3 := rfl
    rw [e1]
    have h : noFoodPoints r ≤ 3 := by
      unfold noFoodPoints
      split_ifs <;> omega
    omega
  · intro r ws e
    apply score_mono_of_preCap
    rw [preCap_split_haswater r ws e false]
    have e1 : (if (false : Bool) then (0 : Int) else 5) = 5 := rfl
    rw [e1]
    have h : noWaterPoints r ≤ 5 := by
      unfold noWaterPoints
      split_ifs <;> omega
    omega
  · intro r ws e
    apply score_mono_of_preCap
    rw [preCap_split_power r ws e false]
    have h : lowBatteryPoints r
        ≤ (if (false : Bool) = false ∧ r.battery_percent.getD 0 < 20 then (2 : Int) else 0) := by
      unfold lowBatteryPoints
      split_ifs with ha hb
      · omega
      · exact absurd ⟨rfl, ha.2⟩ hb
      · omega
      · omega
    omega
  · intro r ws1 ws2 e hrain
    apply score_mono_of_preCap
    rw [preCap_split_weather r ws1 e, preCap_split_weather r ws2 e]
    have h := weatherRiskPoints_mono _ _ hrain
    omega
  · intro r ws e1 e2 h12
    apply score_mono_of_preCap
    rw [preCap_split_elev r ws (some e2), preCap_split_elev r ws (some e1)]
    cases hc : hasCoords r with
    | false => simp [hc]
    | true =>
      simp only [hc, if_true]
      have h := elevationRisk_anti e1 e2 h12
      omega

/-- Witness for C9 at a concrete report: raising the water level from ANKLE to ROOF
(severity indices 0 and 4) does not decrease the score. -/
theorem urgency_score_monotone_witness :
    (scoreReport { baseReport with water_level := some (sevLevel 0) } [] none).urgency_score
      ≤ (scoreReport { baseReport with water_level := some (sevLevel 4) } [] none).urgency_score :=
  urgency_score_monotone.1 baseReport [] none 0 4 (by omega)

/-! ## C10 — low-battery bonus with absent battery percentage -/

/-- Claim C10: for every report whose has_power flag is false and whose battery_percent
is None, the +2 resource-scarcity low-battery bonus is applied: the condition reads
(battery_percent or 0) < 20, and the absent percentage is treated as 0, which is below
the threshold, so the factor sum is exactly 2 higher than for the same report with a
full battery. -/
theorem low_battery_bonus_on_absent_battery
    (r : Report) (ws : List Weather) (e : Option Int)
    (hp : r.has_power = false) (hb : r.battery_percent = none) :
    lowBatteryPoints r = 2
    ∧ preCapScore r ws e
        = preCapScore { r with battery_percent := some 100 } ws e + 2 := by
  have h2 : lowBatteryPoints r = 2 := by
    unfold lowBatteryPoints
    rw [if_pos]
    exact ⟨hp, by rw [hb]; decide⟩
  refine ⟨h2, ?_⟩
  rw [preCap_split_battery r ws e (some 100)]
  have h3 : (if r.has_power = false ∧ (some (100 : Int)).getD 0 < 20 then (2 : Int) else 0)
      = 0 := by
    rw [if_neg]
    intro hcon
    exact absurd hcon.2 (by decide)
  omega

/-- A report with no power bank and an absent battery percentage. -/
def rNoBattery : Report :=
  { baseReport with id := 10, has_power := false, battery_percent := none }

/-- Witness for C10 at the concrete report rNoBattery. -/
theorem low_battery_bonus_on_absent_battery_witness :
    lowBatteryPoints rNoBattery = 2
    ∧ preCapScore rNoBattery [] none
        = preCapScore { rNoBattery with battery_percent := some 100 } [] none + 2 :=
  low_battery_bonus_on_absent_battery rNoBattery [] none rfl rfl

end FloodWatch
